import Mathlib

/-!
Shallow embedding of the Project Samarth agricultural Q&A core (src/app.py).

Conventions of the embedding:
* Python floats are modelled as rationals (ℚ); all arithmetic in the program
  is sums, means, variances and ratios of small integer data, so the formulas
  are identical and the concrete results asserted by the spec (e.g. -8.0, 716)
  are exact in both semantics.
* Python dicts (which preserve insertion order) are modelled as association
  lists in insertion order; dict lookup is `alookup` (first matching key).
* Fallible operations are modelled in `Except String`: direct dict indexing
  `d[k]` is `dictIndex` (KeyError), unguarded division is `pydiv`
  (ZeroDivisionError), `values[-1]` on a possibly-empty list is `trendOf`
  (IndexError).  Operations the code guards (`.get` with a default, `if data`
  checks) are total.
* Strings are processed as their character lists.  `Char.toLower`
  / `Char.isAlphanum` are the ASCII cases of Python's `str.lower` and `\w`;
  every keyword and question in the spec's scope is ASCII.
* The formatted markdown answer strings are not reproduced; the generators
  return the structured values (averages, trends, directions, labels,
  citations) from which the code's f-strings are rendered, which is what the
  claims quantify over.  Raw table copies placed into `data_points`
  (e.g. `crop_trends` raw tables) are kept where a claim needs them and
  otherwise noted.
-/

/-! ## Basic string helpers (Python `in`, `str.lower`) -/

/-- Does the needle occur at the head of the haystack? (helper for `strContains`). -/
def headMatch : List Char → List Char → Bool
  | [], _ => true
  | _ :: _, [] => false
  | n :: ns, h :: hs => n == h && headMatch ns hs

/-- Scan the haystack for an occurrence of the needle (helper for `strContains`). -/
def subSearch (needle : List Char) : List Char → Bool
  | [] => headMatch needle []
  | c :: cs => headMatch needle (c :: cs) || subSearch needle cs

/-- Python's substring test `sub in hay`. -/
def strContains (hay sub : String) : Bool := subSearch sub.toList hay.toList

/-- Python's `question.lower()` (ASCII case, see header note). -/
def lowerStr (s : String) : String := String.mk (s.toList.map Char.toLower)

/-- Python dict lookup `d.get(k)` on an insertion-ordered association list. -/
def alookup {β : Type} (k : String) : List (String × β) → Option β
  | [] => none
  | p :: ps => if k = p.1 then some p.2 else alookup k ps

/-- Python direct dict indexing `d[k]`, raising `KeyError` when absent. -/
def dictIndex {β : Type} (k : String) (l : List (String × β)) : Except String β :=
  match alookup k l with
  | some v => Except.ok v
  | none => Except.error "KeyError"

/-- Python division, raising `ZeroDivisionError` on a zero denominator. -/
def pydiv (a b : ℚ) : Except String ℚ :=
  if b = 0 then Except.error "ZeroDivisionError" else Except.ok (a / b)

/-! ## Static dataset (src/app.py lines 36-95) -/

/-- Yearly table: Python dict year-string ↦ numeric value, in insertion order. -/
abbrev YearTable := List (String × ℚ)

/-- One state's entry of `AGRICULTURAL_DATA`. -/
structure StateAgri where
  crops : List (String × YearTable)
  water_requirements : List (String × String)
deriving Repr

/-- One state's entry of `CLIMATE_DATA`. -/
structure StateClimate where
  rainfall : YearTable
  drought_years : List String
  avg_temperature : ℚ
  climate_zone : String
deriving Repr

/-- Pydantic `DataSource` model (name, url, description). -/
structure DataSource where
  name : String
  url : String
  description : String
deriving Repr, DecidableEq

/-- The `AGRICULTURAL_DATA` table (src/app.py lines 36-67). -/
def AGRICULTURAL_DATA : List (String × StateAgri) := [
  ("rajasthan",
    { crops := [
        ("Bajra", [("2018", 4500), ("2019", 4200), ("2020", 3800), ("2021", 3500), ("2022", 4000)]),
        ("Wheat", [("2018", 3200), ("2019", 3100), ("2020", 2800), ("2021", 2500), ("2022", 2700)]),
        ("Groundnut", [("2018", 800), ("2019", 750), ("2020", 700), ("2021", 650), ("2022", 720)]),
        ("Guar", [("2018", 600), ("2019", 620), ("2020", 580), ("2021", 550), ("2022", 590)]),
        ("Rice", [("2018", 1200), ("2019", 1100), ("2020", 900), ("2021", 800), ("2022", 850)])]
      water_requirements := [
        ("Bajra", "Low (350-400mm)"),
        ("Wheat", "High (500-600mm)"),
        ("Groundnut", "Medium (400-500mm)"),
        ("Guar", "Very Low (250-300mm)"),
        ("Rice", "Very High (1200-1500mm)")] }),
  ("punjab",
    { crops := [
        ("Wheat", [("2018", 18000), ("2019", 17500), ("2020", 17000), ("2021", 16500), ("2022", 16800)]),
        ("Rice", [("2018", 16000), ("2019", 15800), ("2020", 15500), ("2021", 15200), ("2022", 15400)]),
        ("Cotton", [("2018", 2000), ("2019", 1900), ("2020", 1850), ("2021", 1800), ("2022", 1820)]),
        ("Bajra", [("2018", 800), ("2019", 750), ("2020", 700), ("2021", 650), ("2022", 680)])]
      water_requirements := [
        ("Wheat", "High (500-600mm)"),
        ("Rice", "Very High (1200-1500mm)"),
        ("Cotton", "Medium (400-500mm)"),
        ("Bajra", "Low (350-400mm)")] })]

/-- The `CLIMATE_DATA` table (src/app.py lines 69-82). -/
def CLIMATE_DATA : List (String × StateClimate) := [
  ("rajasthan",
    { rainfall := [("2018", 450), ("2019", 380), ("2020", 320), ("2021", 290), ("2022", 410)]
      drought_years := ["2020", "2021"]
      avg_temperature := 57 / 2
      climate_zone := "Arid" }),
  ("punjab",
    { rainfall := [("2018", 650), ("2019", 620), ("2020", 580), ("2021", 590), ("2022", 610)]
      drought_years := []
      avg_temperature := 24
      climate_zone := "Semi-Arid" })]

/-- Entry `DATA_SOURCES["agriculture"]` (src/app.py lines 84-89). -/
def DATA_SOURCES_agriculture : DataSource :=
  { name := "Ministry of Agriculture - Crop Production Statistics"
    url := "https://data.gov.in/resource/all-india-season-wise-crop-production-statistics"
    description := "State-wise and crop-wise production data from 2018-2022" }

/-- Entry `DATA_SOURCES["climate"]` (src/app.py lines 90-95). -/
def DATA_SOURCES_climate : DataSource :=
  { name := "India Meteorological Department - Rainfall Data"
    url := "https://data.gov.in/resource/district-wise-rainfall-normal"
    description := "Historical rainfall patterns and climate data from 2018-2022" }

/-! ## Dataset access chains used by the generators (`.get` with defaults) -/

/-- The chain `AGRICULTURAL_DATA.get(state, {})`. -/
def agriOf (s : String) : Option StateAgri := alookup s AGRICULTURAL_DATA

/-- The chain `AGRICULTURAL_DATA.get(state, {}).get("crops", {})`. -/
def cropsOf (s : String) : List (String × YearTable) :=
  match agriOf s with
  | some a => a.crops
  | none => []

/-- The chain `AGRICULTURAL_DATA.get(state, {}).get("water_requirements", {})`. -/
def waterReqOf (s : String) : List (String × String) :=
  match agriOf s with
  | some a => a.water_requirements
  | none => []

/-- The chain `CLIMATE_DATA.get(state, {})`. -/
def climateOf (s : String) : Option StateClimate := alookup s CLIMATE_DATA

/-- The chain `CLIMATE_DATA.get(state, {}).get("rainfall", {})`. -/
def rainfallOf (s : String) : YearTable :=
  match climateOf s with
  | some c => c.rainfall
  | none => []

/-- The chain `CLIMATE_DATA.get(state, {}).get("drought_years", [])`. -/
def droughtYearsOf (s : String) : List String :=
  match climateOf s with
  | some c => c.drought_years
  | none => []

/-- The chain `CLIMATE_DATA.get(state, {}).get("climate_zone", "Unknown")`. -/
def climateZoneOf (s : String) : String :=
  match climateOf s with
  | some c => c.climate_zone
  | none => "Unknown"

/-- Average rainfall: `sum(rainfall_data.values()) / len(rainfall_data) if rainfall_data else 0`
(src/app.py lines 178 and 311). -/
def avgRainfallOf (s : String) : ℚ :=
  let rf := rainfallOf s
  if rf.isEmpty then 0 else (rf.map (·.2)).sum / (rf.length : ℚ)

/-! ## Entity extractor (src/app.py lines 105-165) -/

/-- Result of `extract_entities` (the `entities` dict). -/
structure Entities where
  states : List String
  crops : List String
  years : List String
  metrics : List String
  comparison_type : Option String
deriving Repr, DecidableEq

/-- The `state_keywords` dict (src/app.py lines 118-123), in insertion order. -/
def state_keywords : List (String × List String) := [
  ("rajasthan", ["rajasthan", "raj"]),
  ("punjab", ["punjab"]),
  ("gujarat", ["gujarat"]),
  ("haryana", ["haryana"])]

/-- The `crop_keywords` dict (src/app.py lines 130-137), in insertion order. -/
def crop_keywords : List (String × List String) := [
  ("Bajra", ["bajra", "pearl millet", "millet"]),
  ("Wheat", ["wheat"]),
  ("Rice", ["rice", "paddy"]),
  ("Cotton", ["cotton"]),
  ("Groundnut", ["groundnut", "peanut"]),
  ("Guar", ["guar", "cluster bean"])]

/-- Python's `any(keyword in question_lower for keyword in keywords)`. -/
def kwMatch (ql : String) (kws : List String) : Bool := kws.any (fun kw => strContains ql kw)

/-- Is the character a `\w` word character (ASCII case: letter, digit, underscore)? -/
def isWordChar (c : Char) : Bool := c.isAlphanum || c == '_'

/-- A `\b` word boundary holds before the current position, given the previous
character (`none` at the start of the string). -/
def boundaryOk : Option Char → Bool
  | none => true
  | some c => !isWordChar c

/-- A `\b` word boundary holds after a match, given the remaining characters. -/
def afterOk : List Char → Bool
  | [] => true
  | c :: _ => !isWordChar c

/-- The regex alternation `201[8-9]|202[0-4]` on four characters. -/
def yearDigits (c1 c2 c3 c4 : Char) : Bool :=
  c1 == '2' && c2 == '0' &&
    ((c3 == '1' && (c4 == '8' || c4 == '9')) ||
     (c3 == '2' && (c4 == '0' || c4 == '1' || c4 == '2' || c4 == '3' || c4 == '4')))

/-- Scanner for `re.findall(r'\b(201[8-9]|202[0-4])\b', question)`: left-to-right,
earliest match, resuming after each (non-overlapping) match, carrying the
previous character for the leading word-boundary test. -/
def yearScan : Option Char → List Char → List String
  | _, [] => []
  | prev, c1 :: c2 :: c3 :: c4 :: rest' =>
    if boundaryOk prev && yearDigits c1 c2 c3 c4 && afterOk rest' then
      String.mk [c1, c2, c3, c4] :: yearScan (some c4) rest'
    else
      yearScan (some c1) (c2 :: c3 :: c4 :: rest')
  | prev, c1 :: rest => yearScan (some c1) rest

/-- The year extraction `re.findall(r'\b(201[8-9]|202[0-4])\b', question)`
(src/app.py line 144; note: applied to the raw question, not the lower-cased one). -/
def findYears (question : String) : List String := yearScan none question.toList

/-- The `extract_entities` function (src/app.py lines 105-165). -/
def extract_entities (question : String) : Entities :=
  let ql := lowerStr question
  { states := (state_keywords.filter (fun p => kwMatch ql p.2)).map (·.1)
    crops := (crop_keywords.filter (fun p => kwMatch ql p.2)).map (·.1)
    years := findYears question
    metrics :=
      (if strContains ql "rainfall" then ["rainfall"] else []) ++
      (if strContains ql "production" || strContains ql "yield" then ["production"] else []) ++
      (if strContains ql "drought" then ["drought_resistance"] else []) ++
      (if strContains ql "water" then ["water_requirement"] else [])
    comparison_type :=
      if strContains ql "compare" then some "comparison"
      else if strContains ql "trend" then some "trend"
      else if strContains ql "argument" || strContains ql "promote" then some "policy_arguments"
      else none }

/-! ## Statistics helper (src/app.py lines 97-103) -/

/-- The `calculate_variance` function: population variance, 0 on empty data. -/
def calculate_variance (data : List ℚ) : ℚ :=
  if data.isEmpty then 0
  else
    let mean := data.sum / (data.length : ℚ)
    ((data.map (fun x => (x - mean) ^ 2)).sum) / (data.length : ℚ)

/-! ## Result structures (structured content of answer + data_points + sources) -/

/-- Per-crop entry of `stability_data` (src/app.py lines 225-229); the code
formats `drought_resilience` as a one-decimal percentage string. -/
structure CropStability where
  average_production : ℚ
  production_variance : ℚ
  drought_resilience : ℚ
deriving Repr, DecidableEq

/-- Structured `data_points` of the policy-argument generator (src/app.py lines 274-280). -/
structure PolicyPoints where
  average_rainfall : ℚ
  drought_years : List String
  climate_zone : String
  crop_stability : List (String × CropStability)
  water_requirements : List (String × String)
deriving Repr, DecidableEq

/-- Per-state block of the comparison generator: `comparison_data[state]`
plus the per-crop answer lines (crop, average production, water label).
The raw `crop_production` tables, copied verbatim from `AGRICULTURAL_DATA`,
are not duplicated here. -/
structure CompEntry where
  rainfall : YearTable
  climate_zone : String
  avg_rainfall : ℚ
  crop_lines : List (String × ℚ × String)
deriving Repr, DecidableEq

/-- Reported direction of a linear trend. -/
inductive TrendDir
  | increasing
  | decreasing
deriving Repr, DecidableEq

/-- Structured output of the trend generator: the raw rainfall table
(`data_points["rainfall_trend"]`), the rainfall answer line (trend value,
direction, drought years) when at least two rainfall values exist, and the
per-crop answer lines (crop, trend value, direction).  The raw
`crop_trends` tables, copied verbatim from `AGRICULTURAL_DATA`, are not
duplicated here. -/
structure TrendPoints where
  rainfall_trend : YearTable
  rainfall_summary : Option (ℚ × TrendDir × List String)
  crop_trends : List (String × ℚ × TrendDir)
deriving Repr, DecidableEq

/-- Which generator produced the data points. -/
inductive Points
  | policy : PolicyPoints → Points
  | comp : List (String × CompEntry) → Points
  | trend : TrendPoints → Points
deriving Repr, DecidableEq

/-- Structured result of a generator: data points plus the `sources` list. -/
structure GenResult where
  points : Points
  sources : List DataSource
deriving Repr, DecidableEq

/-! ## Policy-argument generator (src/app.py lines 167-286) -/

/-- Target state selection, `entities["states"][0] if entities["states"] else "rajasthan"`
(src/app.py lines 170 and 329). -/
def targetStateOf (e : Entities) : String :=
  match e.states with
  | [] => "rajasthan"
  | s :: _ => s

/-- The fixed `drought_resistant_crops` list (src/app.py line 173). -/
def drought_resistant_crops : List String := ["Bajra", "Guar"]

/-- The fixed `water_intensive_crops` list (src/app.py line 174). -/
def water_intensive_crops : List String := ["Rice", "Wheat"]

/-- Stability entry of one crop (src/app.py lines 204-229): population variance,
average production, drought vs non-drought average production, resilience ratio. -/
def cropStabilityOf (tbl : YearTable) (dy : List String) : CropStability :=
  let production_values := tbl.map (·.2)
  let variance := calculate_variance production_values
  let avg_production := production_values.sum / (production_values.length : ℚ)
  let drought_performance := (tbl.filter (fun p => decide (p.1 ∈ dy))).map (·.2)
  let normal_performance := (tbl.filter (fun p => !decide (p.1 ∈ dy))).map (·.2)
  let avg_drought :=
    if drought_performance.isEmpty then 0
    else drought_performance.sum / (drought_performance.length : ℚ)
  let avg_normal :=
    if normal_performance.isEmpty then avg_production
    else normal_performance.sum / (normal_performance.length : ℚ)
  { average_production := avg_production
    production_variance := variance
    drought_resilience := if 0 < avg_normal then avg_drought / avg_normal * 100 else 0 }

/-- The `stability_data` loop (src/app.py lines 201-229): every crop of the two
fixed categories that is present in the state's table with more than one year. -/
def stability_data (cropData : List (String × YearTable)) (dy : List String) :
    List (String × CropStability) :=
  (drought_resistant_crops ++ water_intensive_crops).filterMap (fun c =>
    match alookup c cropData with
    | some tbl => if 1 < tbl.length then some (c, cropStabilityOf tbl dy) else none
    | none => none)

/-- The `generate_policy_arguments` function (src/app.py lines 167-286).  Every
lookup in it is a guarded `.get`, so it is total. -/
def generate_policy_arguments (e : Entities) : GenResult :=
  let state := targetStateOf e
  let dy := droughtYearsOf state
  { points := Points.policy
      { average_rainfall := avgRainfallOf state
        drought_years := dy
        climate_zone := climateZoneOf state
        crop_stability := stability_data (cropsOf state) dy
        water_requirements := (drought_resistant_crops ++ water_intensive_crops).map
          (fun c => (c, (alookup c (waterReqOf state)).getD "Unknown")) }
    sources := [DATA_SOURCES_agriculture, DATA_SOURCES_climate] }

/-! ## Comparison generator (src/app.py lines 288-325) -/

/-- The per-crop loop of a state section (src/app.py lines 301-303 and 315-318):
for each requested crop present in the state's table, the average production
(unguarded division) and the water label via direct indexing
`AGRICULTURAL_DATA[state]["water_requirements"].get(crop, "Unknown")`. -/
def compCropLines (s : String) : List String → Except String (List (String × ℚ × String))
  | [] => Except.ok []
  | c :: cs =>
    match alookup c (cropsOf s) with
    | none => compCropLines s cs
    | some tbl => do
        let avg ← pydiv (tbl.map (·.2)).sum (tbl.length : ℚ)
        let sa ← dictIndex s AGRICULTURAL_DATA
        let rest ← compCropLines s cs
        Except.ok ((c, avg, (alookup c sa.water_requirements).getD "Unknown") :: rest)

/-- One state section of the comparison answer (src/app.py lines 295-319). -/
def compBlock (crops : List String) (s : String) : Except String (String × CompEntry) := do
  let lines ← compCropLines s crops
  Except.ok (s,
    { rainfall := rainfallOf s
      climate_zone := climateZoneOf s
      avg_rainfall := avgRainfallOf s
      crop_lines := lines })

/-- All state sections, in the order of the requested states. -/
def compBlocks (crops : List String) : List String → Except String (List (String × CompEntry))
  | [] => Except.ok []
  | s :: ss => do
    let b ← compBlock crops s
    let rest ← compBlocks crops ss
    Except.ok (b :: rest)

/-- The `generate_comparison` function (src/app.py lines 288-325), with its
defaults for missing states and crops (lines 290-291). -/
def generate_comparison (e : Entities) : Except String GenResult := do
  let states := if e.states.isEmpty then ["rajasthan", "punjab"] else e.states
  let crops := if e.crops.isEmpty then ["Bajra", "Wheat"] else e.crops
  let blocks ← compBlocks crops states
  Except.ok { points := Points.comp blocks
              sources := [DATA_SOURCES_agriculture, DATA_SOURCES_climate] }

/-! ## Trend generator (src/app.py lines 327-369) -/

/-- Lexicographic comparison of character lists by code point, the order
Python uses to compare strings (helper for `sorted`). -/
def charsLt : List Char → List Char → Bool
  | [], [] => false
  | [], _ :: _ => true
  | _ :: _, [] => false
  | a :: as, b :: bs =>
    if a.toNat < b.toNat then true
    else if b.toNat < a.toNat then false
    else charsLt as bs

/-- Python string comparison `a < b`. -/
def strLtB (a b : String) : Bool := charsLt a.toList b.toList

/-- Insert a (year, value) pair into a list sorted ascending by year label. -/
def insertPair (p : String × ℚ) : List (String × ℚ) → List (String × ℚ)
  | [] => [p]
  | q :: qs => if strLtB q.1 p.1 then q :: insertPair p qs else p :: q :: qs

/-- Sort a year table ascending by year label (Python's `sorted(production_data.keys())`). -/
def sortPairs : List (String × ℚ) → List (String × ℚ)
  | [] => []
  | p :: ps => insertPair p (sortPairs ps)

/-- The comprehension `[production_data[year] for year in sorted(production_data.keys())]`
(src/app.py line 359). -/
def sortedValues (tbl : YearTable) : List ℚ := (sortPairs tbl).map (·.2)

/-- The linear-trend expression `(values[-1] - values[0]) / len(values)`
(src/app.py line 360): `IndexError` on an empty list, otherwise last minus
first divided by the length (not length - 1). -/
def trendOf : List ℚ → Except String ℚ
  | [] => Except.error "IndexError"
  | v :: vs => Except.ok (((v :: vs).getLast (List.cons_ne_nil v vs) - v) / (((v :: vs).length : ℕ) : ℚ))

/-- The per-crop loop of the trend answer (src/app.py lines 356-363): for each
requested crop present, the production trend over year-sorted values and its
direction (`'Increasing' if production_trend > 0 else 'Decreasing'`). -/
def trendCropLines (s : String) : List String → Except String (List (String × ℚ × TrendDir))
  | [] => Except.ok []
  | c :: cs =>
    match alookup c (cropsOf s) with
    | none => trendCropLines s cs
    | some tbl => do
        let t ← trendOf (sortedValues tbl)
        let rest ← trendCropLines s cs
        Except.ok ((c, t, if 0 < t then TrendDir.increasing else TrendDir.decreasing) :: rest)

/-- The `generate_trend_analysis` function (src/app.py lines 327-369).  The
rainfall branch (lines 345-350) is entered when more than one rainfall value
exists; inside it `CLIMATE_DATA[state]` is a direct indexing. -/
def generate_trend_analysis (e : Entities) : Except String GenResult := do
  let state := targetStateOf e
  let crops := if e.crops.isEmpty then ["Bajra", "Wheat"] else e.crops
  let rf := rainfallOf state
  let rvs := rf.map (·.2)
  let rsummary ←
    if 1 < rvs.length then do
      let t := (rvs.getLast! - rvs.head!) / (rvs.length : ℚ)
      let cd ← dictIndex state CLIMATE_DATA
      Except.ok (some (t, (if 0 < t then TrendDir.increasing else TrendDir.decreasing),
        cd.drought_years))
    else Except.ok (none : Option (ℚ × TrendDir × List String))
  let ct ← trendCropLines state crops
  Except.ok { points := Points.trend
                { rainfall_trend := rf
                  rainfall_summary := rsummary
                  crop_trends := ct }
              sources := [DATA_SOURCES_agriculture, DATA_SOURCES_climate] }

/-! ## Dispatcher (src/app.py lines 371-385) -/

/-- The fallback keyword list of the dispatcher (src/app.py line 382). -/
def fallback_words : List String := ["drought", "resistant", "promote", "argument"]

/-- The `generate_answer` dispatcher (src/app.py lines 371-385). -/
def generate_answer (e : Entities) (question : String) : Except String GenResult :=
  if e.comparison_type = some "policy_arguments" then
    Except.ok (generate_policy_arguments e)
  else if e.comparison_type = some "comparison" then
    generate_comparison e
  else if e.comparison_type = some "trend" then
    generate_trend_analysis e
  else if fallback_words.any (fun w => strContains (lowerStr question) w) then
    Except.ok (generate_policy_arguments e)
  else
    generate_comparison e

/-! ## Spec-side reference definitions

These definitions follow the wording of spec.md (not the code); refinement
claims compare the code-derived definitions above against them. -/

/-- Spec - statistics helpers (spec.md section 4.2): arithmetic mean, defined as
0 for an empty sequence. -/
def meanSpec (l : List ℚ) : ℚ := if l = [] then 0 else l.sum / (l.length : ℚ)

/-- Spec - drought resilience ratio (spec.md section 4.3): average production in
drought years divided by average production in non-drought years, times 100;
if no drought years are recorded the denominator falls back to the crop's
average production over all years; if no non-drought years exist the ratio
is 0. -/
def specResilienceRatio (tbl : YearTable) (dy : List String) : ℚ :=
  let d := (tbl.filter (fun p => decide (p.1 ∈ dy))).map (·.2)
  let n := (tbl.filter (fun p => !decide (p.1 ∈ dy))).map (·.2)
  if n = [] then 0
  else meanSpec d / (if dy = [] then meanSpec (tbl.map (·.2)) else meanSpec n) * 100

/-- Decimal value of four digit characters (helper for the spec-side reading
of year extraction). -/
def charsVal (c1 c2 c3 c4 : Char) : ℕ :=
  (c1.toNat - 48) * 1000 + (c2.toNat - 48) * 100 + (c3.toNat - 48) * 10 + (c4.toNat - 48)

/-- Spec - a word-bounded 4-digit token with value between 2018 and 2024 starts
here: four digit characters whose decimal value lies in [2018, 2024], followed
by a word boundary (the boundary before the position is checked by the caller). -/
def isYearToken : List Char → Bool
  | c1 :: c2 :: c3 :: c4 :: rest =>
    c1.isDigit && c2.isDigit && c3.isDigit && c4.isDigit &&
      decide (2018 ≤ charsVal c1 c2 c3 c4) && decide (charsVal c1 c2 c3 c4 ≤ 2024) &&
      afterOk rest
  | _ => false

/-- Spec - all word-bounded in-range 4-digit tokens of a character list in
order of occurrence, position by position; `b` says whether a word boundary
holds before position 0. -/
def specAux (b : Bool) (cs : List Char) : List String :=
  (List.range cs.length).filterMap (fun i =>
    if (if i = 0 then b else !isWordChar (cs.getD (i - 1) ' ')) && isYearToken (cs.drop i) then
      some (String.mk ((cs.drop i).take 4))
    else none)

/-- Spec - year extraction (spec.md sections 3 and 4.1): the ordered sequence of
word-bounded 4-digit tokens of the question whose value lies within 2018-2024. -/
def specYears (q : String) : List String := specAux true q.toList

/-! ## Concrete fixtures used to instantiate the theorems -/

/-- Entities with nothing extracted. -/
def entNone : Entities :=
  { states := [], crops := [], years := [], metrics := [], comparison_type := none }

/-- Entities with only the state rajasthan extracted. -/
def entRaj : Entities :=
  { states := ["rajasthan"], crops := [], years := [], metrics := [], comparison_type := none }

/-- The comparison result on wholly-default entities (both states, both default
crops), as computed by the code. -/
def compDefaultRes : GenResult :=
  { points := Points.comp [
      ("rajasthan",
        { rainfall := [("2018", 450), ("2019", 380), ("2020", 320), ("2021", 290), ("2022", 410)]
          climate_zone := "Arid"
          avg_rainfall := 370
          crop_lines := [("Bajra", 4000, "Low (350-400mm)"), ("Wheat", 2860, "High (500-600mm)")] }),
      ("punjab",
        { rainfall := [("2018", 650), ("2019", 620), ("2020", 580), ("2021", 590), ("2022", 610)]
          climate_zone := "Semi-Arid"
          avg_rainfall := 610
          crop_lines := [("Bajra", 716, "Low (350-400mm)"), ("Wheat", 17160, "High (500-600mm)")] })]
    sources := [DATA_SOURCES_agriculture, DATA_SOURCES_climate] }

/-- The trend points on rajasthan with default crops, as computed by the code. -/
def trendRajPoints : TrendPoints :=
  { rainfall_trend := [("2018", 450), ("2019", 380), ("2020", 320), ("2021", 290), ("2022", 410)]
    rainfall_summary := some (-8, TrendDir.decreasing, ["2020", "2021"])
    crop_trends := [("Bajra", -100, TrendDir.decreasing), ("Wheat", -100, TrendDir.decreasing)] }

/-- The trend result on rajasthan with default crops, as computed by the code. -/
def trendRajRes : GenResult :=
  { points := Points.trend trendRajPoints
    sources := [DATA_SOURCES_agriculture, DATA_SOURCES_climate] }

/-- The policy points on rajasthan, as computed by the code. -/
def policyRajPoints : PolicyPoints :=
  { average_rainfall := 370
    drought_years := ["2020", "2021"]
    climate_zone := "Arid"
    crop_stability := [
      ("Bajra", { average_production := 4000, production_variance := 116000,
                  drought_resilience := 10950 / 127 }),
      ("Guar", { average_production := 588, production_variance := 536,
                 drought_resilience := 16950 / 181 }),
      ("Rice", { average_production := 970, production_variance := 23600,
                 drought_resilience := 1700 / 21 }),
      ("Wheat", { average_production := 2860, production_variance := 66400,
                  drought_resilience := 265 / 3 })]
    water_requirements := [
      ("Bajra", "Low (350-400mm)"),
      ("Guar", "Very Low (250-300mm)"),
      ("Rice", "Very High (1200-1500mm)"),
      ("Wheat", "High (500-600mm)")] }

/-- Ascending-by-year-label order on table entries: the later entry's year
label is not smaller than the earlier one's. -/
def keyLe (a b : String × ℚ) : Prop := strLtB b.1 a.1 = false

/-! ## Helper lemmas -/

/-- Bind of an ok value in `Except` reduces to the continuation. -/
theorem except_ok_bind {ε α β : Type} (a : α) (f : α → Except ε β) :
    (Bind.bind (Except.ok a : Except ε α) f) = f a := rfl

/-- Bind of an error in `Except` is that error. -/
theorem except_error_bind {ε α β : Type} (e : ε) (f : α → Except ε β) :
    (Bind.bind (Except.error e : Except ε α) f) = Except.error e := rfl

/-- Inversion of a successful `Except` bind. -/
theorem bind_eq_ok {ε α β : Type} {x : Except ε α} {f : α → Except ε β} {r : β}
    (h : Bind.bind x f = Except.ok r) : ∃ a, x = Except.ok a ∧ f a = Except.ok r := by
  cases x with
  | ok a => exact ⟨a, rfl, h⟩
  | error e => exact absurd h (by simp [except_error_bind])

/-- A successful `alookup` means the pair is in the association list. -/
theorem alookup_mem {β : Type} {k : String} {l : List (String × β)} {v : β}
    (h : alookup k l = some v) : (k, v) ∈ l := by
  induction l with
  | nil => simp [alookup] at h
  | cons p ps ih =>
    rw [alookup] at h
    split at h
    · next heq =>
      cases p
      simp only [Option.some.injEq] at h
      simp_all
    · exact List.mem_cons_of_mem _ (ih h)

/-- Every crop table stored in `AGRICULTURAL_DATA` is non-empty, and a
successful crop lookup pins the state to one present in the table. -/
theorem cropsOf_table_ne_nil {s c : String} {tbl : YearTable}
    (h : alookup c (cropsOf s) = some tbl) :
    tbl ≠ [] ∧ ∃ sa, alookup s AGRICULTURAL_DATA = some sa := by
  cases hagri : alookup s AGRICULTURAL_DATA with
  | none =>
    rw [cropsOf, agriOf, hagri] at h
    simp [alookup] at h
  | some sa =>
    rw [cropsOf, agriOf, hagri] at h
    refine ⟨?_, sa, rfl⟩
    have hmem := alookup_mem hagri
    have hc := alookup_mem h
    simp only [AGRICULTURAL_DATA, List.mem_cons, List.mem_singleton, Prod.mk.injEq,
      List.not_mem_nil, or_false] at hmem
    rcases hmem with ⟨-, rfl⟩ | ⟨-, rfl⟩
    · simp at hc
      rcases hc with ⟨-, rfl⟩ | ⟨-, rfl⟩ | ⟨-, rfl⟩ | ⟨-, rfl⟩ | ⟨-, rfl⟩ <;> simp
    · simp at hc
      rcases hc with ⟨-, rfl⟩ | ⟨-, rfl⟩ | ⟨-, rfl⟩ | ⟨-, rfl⟩ <;> simp

/-- A non-empty rainfall table pins the state to one present in `CLIMATE_DATA`. -/
theorem rainfall_pos_climate {s : String} (h : rainfallOf s ≠ []) :
    ∃ cd, alookup s CLIMATE_DATA = some cd := by
  cases hc : alookup s CLIMATE_DATA with
  | none => rw [rainfallOf, climateOf, hc] at h; exact absurd rfl h
  | some cd => exact ⟨cd, rfl⟩

/-- Inserting preserves length. -/
theorem insertPair_length (p : String × ℚ) (l : List (String × ℚ)) :
    (insertPair p l).length = l.length + 1 := by
  induction l with
  | nil => rfl
  | cons q qs ih => rw [insertPair]; split <;> simp [ih]

/-- Sorting preserves length. -/
theorem sortPairs_length (l : List (String × ℚ)) : (sortPairs l).length = l.length := by
  induction l with
  | nil => rfl
  | cons p ps ih => rw [sortPairs, insertPair_length, ih, List.length_cons]

/-- Sorted values of a non-empty table are non-empty. -/
theorem sortedValues_ne_nil {tbl : YearTable} (h : tbl ≠ []) : sortedValues tbl ≠ [] := by
  have hl : (sortedValues tbl).length = tbl.length := by
    rw [sortedValues, List.length_map, sortPairs_length]
  intro hnil
  rw [hnil] at hl
  exact h (List.eq_nil_of_length_eq_zero hl.symm)

/-- The linear-trend expression succeeds on any non-empty value list. -/
theorem trendOf_ok {vs : List ℚ} (h : vs ≠ []) : ∃ t, trendOf vs = Except.ok t := by
  cases vs with
  | nil => exact absurd rfl h
  | cons v vs => exact ⟨_, rfl⟩

/-! ## Totality of the generators -/

/-- The per-crop comparison loop never fails: a crop line is only computed for
a crop found in the state's table, whose table is non-empty and whose state is
present in `AGRICULTURAL_DATA`. -/
theorem compCropLines_ok (s : String) (cs : List String) :
    ∃ l, compCropLines s cs = Except.ok l := by
  induction cs with
  | nil => exact ⟨[], rfl⟩
  | cons c cs ih =>
    obtain ⟨l, hl⟩ := ih
    cases h : alookup c (cropsOf s) with
    | none => exact ⟨l, by simp only [compCropLines, h]; exact hl⟩
    | some tbl =>
      obtain ⟨hne, sa, hsa⟩ := cropsOf_table_ne_nil h
      have hlen : ¬(((tbl.length : ℕ) : ℚ) = 0) := by
        simp only [Nat.cast_eq_zero, List.length_eq_zero]
        exact hne
      refine ⟨(c, (tbl.map (·.2)).sum / ((tbl.length : ℕ) : ℚ),
        (alookup c sa.water_requirements).getD "Unknown") :: l, ?_⟩
      simp only [compCropLines, h, pydiv, if_neg hlen, except_ok_bind, dictIndex, hsa, hl]

/-- Composition rule: a bind of two succeeding computations succeeds. -/
theorem bind_ok_exists {ε α β : Type} {x : Except ε α} {f : α → Except ε β}
    (hx : ∃ a, x = Except.ok a) (hf : ∀ a, ∃ b, f a = Except.ok b) :
    ∃ b, Bind.bind x f = Except.ok b := by
  obtain ⟨a, ha⟩ := hx
  obtain ⟨b, hb⟩ := hf a
  exact ⟨b, by rw [ha, except_ok_bind]; exact hb⟩

/-- One comparison state section never fails. -/
theorem compBlock_ok (crops : List String) (s : String) :
    ∃ b, compBlock crops s = Except.ok b := by
  simp only [compBlock]
  exact bind_ok_exists (compCropLines_ok s crops) (fun l => ⟨_, rfl⟩)

/-- The comparison state loop never fails. -/
theorem compBlocks_ok (crops : List String) (ss : List String) :
    ∃ l, compBlocks crops ss = Except.ok l := by
  induction ss with
  | nil => exact ⟨[], rfl⟩
  | cons s ss ih =>
    obtain ⟨l, hl⟩ := ih
    obtain ⟨b, hb⟩ := compBlock_ok crops s
    exact ⟨b :: l, by simp only [compBlocks, hb, except_ok_bind, hl]⟩

/-- The per-crop trend loop never fails. -/
theorem trendCropLines_ok (s : String) (cs : List String) :
    ∃ l, trendCropLines s cs = Except.ok l := by
  induction cs with
  | nil => exact ⟨[], rfl⟩
  | cons c cs ih =>
    obtain ⟨l, hl⟩ := ih
    cases h : alookup c (cropsOf s) with
    | none => exact ⟨l, by simp only [trendCropLines, h]; exact hl⟩
    | some tbl =>
      obtain ⟨hne, -⟩ := cropsOf_table_ne_nil h
      obtain ⟨t, ht⟩ := trendOf_ok (sortedValues_ne_nil hne)
      exact ⟨(c, t, if 0 < t then TrendDir.increasing else TrendDir.decreasing) :: l,
        by simp only [trendCropLines, h, ht, except_ok_bind, hl]⟩

/-- The comparison generator never fails. -/
theorem generate_comparison_ok (e : Entities) :
    ∃ r, generate_comparison e = Except.ok r := by
  simp only [generate_comparison]
  exact bind_ok_exists (compBlocks_ok _ _) (fun bs => ⟨_, rfl⟩)

/-- The trend generator never fails. -/
theorem generate_trend_analysis_ok (e : Entities) :
    ∃ r, generate_trend_analysis e = Except.ok r := by
  simp only [generate_trend_analysis]
  by_cases hr : 1 < ((rainfallOf (targetStateOf e)).map (·.2)).length
  · rw [if_pos hr]
    apply bind_ok_exists
    · have hne : rainfallOf (targetStateOf e) ≠ [] := by
        intro hnil
        rw [hnil] at hr
        simp at hr
      obtain ⟨cd, hcd⟩ := rainfall_pos_climate hne
      exact ⟨cd, by rw [dictIndex, hcd]⟩
    · intro cd
      apply bind_ok_exists ⟨_, rfl⟩
      intro y
      exact bind_ok_exists (trendCropLines_ok _ _) (fun ct => ⟨_, rfl⟩)
  · rw [if_neg hr]
    apply bind_ok_exists ⟨_, rfl⟩
    intro y
    exact bind_ok_exists (trendCropLines_ok _ _) (fun ct => ⟨_, rfl⟩)

/-- The dispatcher never fails. -/
theorem generate_answer_ok (e : Entities) (q : String) :
    ∃ r, generate_answer e q = Except.ok r := by
  rw [generate_answer]
  split_ifs
  · exact ⟨_, rfl⟩
  · exact generate_comparison_ok e
  · exact generate_trend_analysis_ok e
  · exact ⟨_, rfl⟩
  · exact generate_comparison_ok e

/-- C2: for every input (any entities, in particular any question, including
states or crops absent from the static tables), the comparison generator, the
trend generator and the dispatcher all return a result and never raise; the
policy-argument generator is total by construction (`generate_policy_arguments`
returns a plain `GenResult`, every access in it being a guarded `.get`). -/
theorem C2_generators_never_raise :
    ∀ (e : Entities) (q : String),
      (∃ r, generate_comparison e = Except.ok r) ∧
      (∃ r, generate_trend_analysis e = Except.ok r) ∧
      (∃ r, generate_answer e q = Except.ok r) ∧
      (∃ r, generate_answer (extract_entities q) q = Except.ok r) := by
  intro e q
  exact ⟨generate_comparison_ok e, generate_trend_analysis_ok e,
    generate_answer_ok e q, generate_answer_ok (extract_entities q) q⟩

/-! ## Fixed sources (claim C9) -/

/-- Sources of a successful comparison run are the two fixed records. -/
theorem generate_comparison_sources {e : Entities} {r : GenResult}
    (h : generate_comparison e = Except.ok r) :
    r.sources = [DATA_SOURCES_agriculture, DATA_SOURCES_climate] := by
  rw [generate_comparison] at h
  obtain ⟨bs, -, hok⟩ := bind_eq_ok h
  cases hok
  rfl

/-- Sources of a successful trend run are the two fixed records. -/
theorem generate_trend_sources {e : Entities} {r : GenResult}
    (h : generate_trend_analysis e = Except.ok r) :
    r.sources = [DATA_SOURCES_agriculture, DATA_SOURCES_climate] := by
  simp only [generate_trend_analysis] at h
  split at h
  · obtain ⟨cd, -, h⟩ := bind_eq_ok h
    obtain ⟨y, -, h⟩ := bind_eq_ok h
    obtain ⟨ct, -, h⟩ := bind_eq_ok h
    cases h
    rfl
  · obtain ⟨y, -, h⟩ := bind_eq_ok h
    obtain ⟨ct, -, h⟩ := bind_eq_ok h
    cases h
    rfl

/-- C9: every result produced by any of the three generators, and hence by the
dispatcher, carries exactly the two fixed citation records, agriculture source
first, climate source second, whatever the entities and question are. -/
theorem C9_fixed_sources (e : Entities) (q : String) :
    (generate_policy_arguments e).sources = [DATA_SOURCES_agriculture, DATA_SOURCES_climate] ∧
    (∀ r, generate_comparison e = Except.ok r →
      r.sources = [DATA_SOURCES_agriculture, DATA_SOURCES_climate]) ∧
    (∀ r, generate_trend_analysis e = Except.ok r →
      r.sources = [DATA_SOURCES_agriculture, DATA_SOURCES_climate]) ∧
    (∀ r, generate_answer e q = Except.ok r →
      r.sources = [DATA_SOURCES_agriculture, DATA_SOURCES_climate]) := by
  refine ⟨rfl, fun r h => generate_comparison_sources h,
    fun r h => generate_trend_sources h, fun r h => ?_⟩
  rw [generate_answer] at h
  split_ifs at h
  · cases h; rfl
  · exact generate_comparison_sources h
  · exact generate_trend_sources h
  · cases h; rfl
  · exact generate_comparison_sources h

/-! ## Concrete evaluation lemmas -/

/-- Evaluation helper: last element of a singleton. -/
theorem getLast_bang_singleton {α : Type} [Inhabited α] (a : α) : ([a] : List α).getLast! = a := rfl

/-- Evaluation helper: last element of a longer list. -/
theorem getLast_bang_cons {α : Type} [Inhabited α] (a b : α) (l : List α) :
    (a :: b :: l).getLast! = (b :: l).getLast! := rfl

/-- Evaluation helper: first element of a non-empty list. -/
theorem head_bang_cons {α : Type} [Inhabited α] (a : α) (l : List α) : (a :: l).head! = a := rfl

/-- Running the comparison generator with no extracted states and no extracted
crops produces the default comparison result. -/
theorem comp_eval_default {e : Entities} (hs : e.states = []) (hc : e.crops = []) :
    generate_comparison e = Except.ok compDefaultRes := by
  simp [generate_comparison, hs, hc, compBlocks, compBlock, compCropLines, cropsOf, agriOf,
    alookup, AGRICULTURAL_DATA, pydiv, dictIndex, except_ok_bind, rainfallOf, climateOf,
    CLIMATE_DATA, climateZoneOf, avgRainfallOf, compDefaultRes]
  norm_num

/-- Running the comparison generator on the empty entities. -/
theorem comp_default_eval : generate_comparison entNone = Except.ok compDefaultRes :=
  comp_eval_default rfl rfl

/-- Running the trend generator on rajasthan with default crops. -/
theorem trend_raj_eval : generate_trend_analysis entRaj = Except.ok trendRajRes := by
  simp +decide [generate_trend_analysis, targetStateOf, rainfallOf, climateOf, alookup,
    CLIMATE_DATA, dictIndex, except_ok_bind, trendCropLines, cropsOf, agriOf, AGRICULTURAL_DATA,
    trendOf, sortedValues, sortPairs, insertPair, strLtB, charsLt, entRaj, trendRajRes, trendRajPoints,
    getLast_bang_singleton, getLast_bang_cons, head_bang_cons]
  norm_num [getLast_bang_singleton, getLast_bang_cons]

/-! ## Claim C6: linear trend formula and the rainfall instance -/

/-- C6: the linear trend of a sequence of at least two values is
(last value - first value) divided by the sequence length (not length - 1);
on the Rajasthan rainfall series 450, 380, 320, 290, 410 the trend generator
computes (410 - 450) / 5 = -8.0 and reports it as decreasing. -/
theorem C6_linear_trend :
    (∀ (v w : ℚ) (vs : List ℚ), trendOf (v :: w :: vs) =
      Except.ok (((v :: w :: vs).getLast (List.cons_ne_nil v (w :: vs)) - v) /
        (((v :: w :: vs).length : ℕ) : ℚ))) ∧
    (∃ tp : TrendPoints,
      generate_trend_analysis entRaj =
        Except.ok { points := Points.trend tp
                    sources := [DATA_SOURCES_agriculture, DATA_SOURCES_climate] } ∧
      tp.rainfall_trend = [("2018", 450), ("2019", 380), ("2020", 320), ("2021", 290), ("2022", 410)] ∧
      tp.rainfall_summary = some ((410 - 450) / 5, TrendDir.decreasing, ["2020", "2021"]) ∧
      ((410 - 450 : ℚ) / 5 = -8)) := by
  constructor
  · intro v w vs
    rfl
  · refine ⟨{ rainfall_trend := [("2018", 450), ("2019", 380), ("2020", 320), ("2021", 290), ("2022", 410)]
              rainfall_summary := some (-8, TrendDir.decreasing, ["2020", "2021"])
              crop_trends := [("Bajra", -100, TrendDir.decreasing), ("Wheat", -100, TrendDir.decreasing)] },
      trend_raj_eval, rfl, ?_, by norm_num⟩
    norm_num

/-! ## Claim C8: comparison defaults and Punjab Bajra average -/

/-- C8: with no states and no crops extracted, the comparison generator uses
the default states rajasthan and punjab and default crops Bajra and Wheat, and
in that run Punjab's average Bajra production is (800+750+700+650+680)/5 = 716. -/
theorem C8_comparison_defaults (e : Entities) (hs : e.states = []) (hc : e.crops = []) :
    ∃ bs : List (String × CompEntry),
      generate_comparison e =
        Except.ok { points := Points.comp bs
                    sources := [DATA_SOURCES_agriculture, DATA_SOURCES_climate] } ∧
      bs.map (·.1) = ["rajasthan", "punjab"] ∧
      (∀ p ∈ bs, p.2.crop_lines.map (·.1) = ["Bajra", "Wheat"]) ∧
      ∃ pe : CompEntry, ("punjab", pe) ∈ bs ∧
        ("Bajra", (800 + 750 + 700 + 650 + 680) / 5, "Low (350-400mm)") ∈ pe.crop_lines ∧
        ((800 + 750 + 700 + 650 + 680 : ℚ) / 5 = 716) := by
  have h := comp_eval_default hs hc
  refine ⟨[
      ("rajasthan",
        { rainfall := [("2018", 450), ("2019", 380), ("2020", 320), ("2021", 290), ("2022", 410)]
          climate_zone := "Arid"
          avg_rainfall := 370
          crop_lines := [("Bajra", 4000, "Low (350-400mm)"), ("Wheat", 2860, "High (500-600mm)")] }),
      ("punjab",
        { rainfall := [("2018", 650), ("2019", 620), ("2020", 580), ("2021", 590), ("2022", 610)]
          climate_zone := "Semi-Arid"
          avg_rainfall := 610
          crop_lines := [("Bajra", 716, "Low (350-400mm)"), ("Wheat", 17160, "High (500-600mm)")] })],
    h, rfl, ?_, ?_⟩
  · intro p hp
    simp only [List.mem_cons, List.not_mem_nil, or_false] at hp
    rcases hp with rfl | rfl <;> rfl
  · refine ⟨{ rainfall := [("2018", 650), ("2019", 620), ("2020", 580), ("2021", 590), ("2022", 610)]
              climate_zone := "Semi-Arid"
              avg_rainfall := 610
              crop_lines := [("Bajra", 716, "Low (350-400mm)"), ("Wheat", 17160, "High (500-600mm)")] },
      by norm_num, by norm_num, by norm_num⟩

/-- Witness for C8 at the empty entities. -/
theorem C8_comparison_defaults_witness :
    entNone.states = [] ∧ entNone.crops = [] ∧
    ∃ bs : List (String × CompEntry),
      generate_comparison entNone =
        Except.ok { points := Points.comp bs
                    sources := [DATA_SOURCES_agriculture, DATA_SOURCES_climate] } ∧
      bs.map (·.1) = ["rajasthan", "punjab"] ∧
      (∀ p ∈ bs, p.2.crop_lines.map (·.1) = ["Bajra", "Wheat"]) ∧
      ∃ pe : CompEntry, ("punjab", pe) ∈ bs ∧
        ("Bajra", (800 + 750 + 700 + 650 + 680) / 5, "Low (350-400mm)") ∈ pe.crop_lines ∧
        ((800 + 750 + 700 + 650 + 680 : ℚ) / 5 = 716) :=
  ⟨rfl, rfl, C8_comparison_defaults entNone rfl rfl⟩

/-! ## Claim C3: dispatcher routing -/

/-- C3: the dispatcher routes intent policy_arguments to the policy-argument
generator, comparison to the comparison generator, trend to the trend
generator; for any other intent, it routes to the policy-argument generator
exactly when the lower-cased question contains one of drought, resistant,
promote, argument, and to the comparison generator otherwise. -/
theorem C3_dispatcher_routing (e : Entities) (q : String) :
    (e.comparison_type = some "policy_arguments" →
      generate_answer e q = Except.ok (generate_policy_arguments e)) ∧
    (e.comparison_type = some "comparison" →
      generate_answer e q = generate_comparison e) ∧
    (e.comparison_type = some "trend" →
      generate_answer e q = generate_trend_analysis e) ∧
    (e.comparison_type ≠ some "policy_arguments" →
      e.comparison_type ≠ some "comparison" →
      e.comparison_type ≠ some "trend" →
      generate_answer e q =
        if fallback_words.any (fun w => strContains (lowerStr q) w) then
          Except.ok (generate_policy_arguments e)
        else generate_comparison e) := by
  refine ⟨fun h => ?_, fun h => ?_, fun h => ?_, fun h1 h2 h3 => ?_⟩
  · rw [generate_answer, if_pos h]
  · rw [generate_answer, if_neg (by simp [h]), if_pos h]
  · rw [generate_answer, if_neg (by simp [h]), if_neg (by simp [h]), if_pos h]
  · rw [generate_answer, if_neg h1, if_neg h2, if_neg h3]

/-- Witness for C3 on unset intent with a fallback keyword present. -/
theorem C3_dispatcher_routing_witness :
    entNone.comparison_type ≠ some "policy_arguments" ∧
    entNone.comparison_type ≠ some "comparison" ∧
    entNone.comparison_type ≠ some "trend" ∧
    generate_answer entNone "promote" = Except.ok (generate_policy_arguments entNone) := by
  refine ⟨by decide, by decide, by decide, ?_⟩
  rw [(C3_dispatcher_routing entNone "promote").2.2.2 (by decide) (by decide) (by decide),
    if_pos (by decide)]

/-! ## Claim C10: intent precedence in the extractor -/

/-- C10: intent detection is first-match-wins with fixed precedence: compare
beats trend, which beats argument or promote; a question containing both
compare and trend gets intent comparison. -/
theorem C10_intent_first_match (q : String) :
    (strContains (lowerStr q) "compare" = true →
      (extract_entities q).comparison_type = some "comparison") ∧
    (strContains (lowerStr q) "compare" = false →
      strContains (lowerStr q) "trend" = true →
      (extract_entities q).comparison_type = some "trend") ∧
    (strContains (lowerStr q) "compare" = false →
      strContains (lowerStr q) "trend" = false →
      (strContains (lowerStr q) "argument" || strContains (lowerStr q) "promote") = true →
      (extract_entities q).comparison_type = some "policy_arguments") := by
  refine ⟨fun h => ?_, fun h1 h2 => ?_, fun h1 h2 h3 => ?_⟩
  · simp [extract_entities, h]
  · simp [extract_entities, h1, h2]
  · simp [extract_entities, h1, h2, h3]

/-- Witness for C10 on a question containing both compare and trend. -/
theorem C10_intent_first_match_witness :
    strContains (lowerStr "Compare the trend") "compare" = true ∧
    strContains (lowerStr "Compare the trend") "trend" = true ∧
    (extract_entities "Compare the trend").comparison_type = some "comparison" :=
  ⟨by decide, by decide, (C10_intent_first_match "Compare the trend").1 (by decide)⟩

/-- Witness for C9, instantiating each branch at a concrete run. -/
theorem C9_fixed_sources_witness :
    (generate_policy_arguments entNone).sources = [DATA_SOURCES_agriculture, DATA_SOURCES_climate] ∧
    compDefaultRes.sources = [DATA_SOURCES_agriculture, DATA_SOURCES_climate] ∧
    trendRajRes.sources = [DATA_SOURCES_agriculture, DATA_SOURCES_climate] := by
  refine ⟨(C9_fixed_sources entNone "hello").1, ?_, ?_⟩
  · exact (C9_fixed_sources entNone "hello").2.1 compDefaultRes comp_default_eval
  · exact (C9_fixed_sources entRaj "hello").2.2.1 trendRajRes trend_raj_eval

/-! ## Claim C1: the drought resilience ratio -/

/-- Running the policy generator on rajasthan produces the concrete stability
table computed by the code. -/
theorem policy_raj_eval :
    (generate_policy_arguments entRaj).points = Points.policy policyRajPoints := by
  simp [generate_policy_arguments, targetStateOf, entRaj, droughtYearsOf, climateOf, alookup,
    CLIMATE_DATA, avgRainfallOf, rainfallOf, climateZoneOf, stability_data,
    drought_resistant_crops, water_intensive_crops, cropsOf, agriOf, AGRICULTURAL_DATA,
    cropStabilityOf, calculate_variance, waterReqOf, policyRajPoints]
  norm_num

/-- Membership in the stability table comes from a crop present in the state
table with more than one year of data. -/
theorem stability_mem {cropData : List (String × YearTable)} {dy : List String}
    {c : String} {st : CropStability}
    (h : (c, st) ∈ stability_data cropData dy) :
    ∃ tbl, alookup c cropData = some tbl ∧ 1 < tbl.length ∧ st = cropStabilityOf tbl dy := by
  obtain ⟨a, ha, hfa⟩ := List.mem_filterMap.mp h
  cases hal : alookup a cropData with
  | none => simp [hal] at hfa
  | some tbl =>
    simp only [hal] at hfa
    by_cases hlen : 1 < tbl.length
    · rw [if_pos hlen] at hfa
      simp only [Option.some.injEq, Prod.mk.injEq] at hfa
      obtain ⟨rfl, rfl⟩ := hfa
      exact ⟨tbl, hal, hlen, rfl⟩
    · rw [if_neg hlen] at hfa
      exact absurd hfa (by simp)

/-- For every crop table reachable from a state lookup, the code's resilience
ratio agrees with the spec's formula. -/
theorem ratio_code_eq_spec {s c : String} {tbl : YearTable}
    (h : alookup c (cropsOf s) = some tbl) :
    (cropStabilityOf tbl (droughtYearsOf s)).drought_resilience =
      specResilienceRatio tbl (droughtYearsOf s) := by
  cases hagri : alookup s AGRICULTURAL_DATA with
  | none =>
    rw [cropsOf, agriOf, hagri] at h
    simp [alookup] at h
  | some sa =>
    rw [cropsOf, agriOf, hagri] at h
    have hmem := alookup_mem hagri
    have hc := alookup_mem h
    simp only [AGRICULTURAL_DATA, List.mem_cons, List.not_mem_nil, or_false,
      Prod.mk.injEq] at hmem
    rcases hmem with ⟨rfl, rfl⟩ | ⟨rfl, rfl⟩
    · have hdy : droughtYearsOf "rajasthan" = ["2020", "2021"] := rfl
      simp at hc
      rcases hc with ⟨-, rfl⟩ | ⟨-, rfl⟩ | ⟨-, rfl⟩ | ⟨-, rfl⟩ | ⟨-, rfl⟩ <;>
        (rw [hdy]
         simp [cropStabilityOf, specResilienceRatio, calculate_variance, meanSpec]
         try norm_num)
    · have hdy : droughtYearsOf "punjab" = [] := rfl
      simp at hc
      rcases hc with ⟨-, rfl⟩ | ⟨-, rfl⟩ | ⟨-, rfl⟩ | ⟨-, rfl⟩ <;>
        (rw [hdy]
         simp [cropStabilityOf, specResilienceRatio, calculate_variance, meanSpec]
         try norm_num)

/-- C1: for every crop processed by the policy-argument generator for the
target state, the stored drought resilience value equals the spec's ratio:
average production in drought years over average production in non-drought
years times 100, with the spec's fallbacks (denominator is the crop's overall
average when no drought years are recorded; ratio 0 when no non-drought years
exist). -/
theorem C1_drought_resilience (e : Entities) (p : PolicyPoints) (c : String) (st : CropStability)
    (hp : (generate_policy_arguments e).points = Points.policy p)
    (hmem : (c, st) ∈ p.crop_stability) :
    ∃ tbl, alookup c (cropsOf (targetStateOf e)) = some tbl ∧
      st.drought_resilience = specResilienceRatio tbl (droughtYearsOf (targetStateOf e)) := by
  simp only [generate_policy_arguments, Points.policy.injEq] at hp
  subst hp
  obtain ⟨tbl, hal, -, rfl⟩ := stability_mem hmem
  exact ⟨tbl, hal, ratio_code_eq_spec hal⟩

/-- Witness for C1 on rajasthan's Bajra entry. -/
theorem C1_drought_resilience_witness :
    (generate_policy_arguments entRaj).points = Points.policy policyRajPoints ∧
    ("Bajra", { average_production := 4000, production_variance := 116000,
                drought_resilience := 10950 / 127 }) ∈ policyRajPoints.crop_stability ∧
    ∃ tbl, alookup "Bajra" (cropsOf (targetStateOf entRaj)) = some tbl ∧
      ({ average_production := 4000, production_variance := 116000,
         drought_resilience := 10950 / 127 } : CropStability).drought_resilience =
        specResilienceRatio tbl (droughtYearsOf (targetStateOf entRaj)) := by
  refine ⟨policy_raj_eval, by norm_num [policyRajPoints], ?_⟩
  exact C1_drought_resilience entRaj policyRajPoints "Bajra" _ policy_raj_eval
    (by norm_num [policyRajPoints])

/-! ## Claim C4: canonical crop appended exactly once -/

/-- Counting a key in the keys of a filtered association list with nodup keys:
if the key's entry passes the filter, the count is exactly one. -/
theorem count_map_filter_eq_one {α : Type} (p : String × α → Bool) (k : String) :
    ∀ (l : List (String × α)), (l.map (·.1)).Nodup →
      ∀ x, (k, x) ∈ l → p (k, x) = true →
      ((l.filter p).map (·.1)).count k = 1 := by
  intro l
  induction l with
  | nil =>
    intro _ x hx
    simp at hx
  | cons a t ih =>
    intro hnd x hx hpx
    rw [List.map_cons, List.nodup_cons] at hnd
    obtain ⟨hna, hnd⟩ := hnd
    rcases List.mem_cons.mp hx with heq | hxt
    · have hkeep : p a = true := by rw [← heq]; exact hpx
      have hk : a.1 = k := by rw [← heq]
      have h0 : k ∉ t.map (·.1) := by rw [← hk]; exact hna
      have hsub : ((t.filter p).map (·.1)).Sublist (t.map (·.1)) :=
        (List.filter_sublist t).map _
      have hz : ((t.filter p).map (·.1)).count k = 0 :=
        Nat.le_zero.mp (le_of_le_of_eq (hsub.count_le k) (List.count_eq_zero.mpr h0))
      simp [List.filter_cons, hkeep, List.count_cons, hz, hk]
    · have hkmem : k ∈ t.map (·.1) := List.mem_map.mpr ⟨(k, x), hxt, rfl⟩
      have hak : ¬((a.1 == k) = true) := by
        intro hb
        have : a.1 = k := by simpa using hb
        rw [this] at hna
        exact hna hkmem
      have ihr := ih hnd x hxt hpx
      rw [List.filter_cons]
      split
      · simp [List.count_cons, hak, ihr]
      · exact ihr

/-- C1 helper is above; C4: if the lower-cased question contains any synonym of
a crop's keyword set, the extractor's crop list contains that crop's canonical
name exactly once, even when several synonyms of the crop occur. -/
theorem C4_crop_once (q : String) (c : String) (kws : List String)
    (hc : (c, kws) ∈ crop_keywords)
    (hm : ∃ kw ∈ kws, strContains (lowerStr q) kw = true) :
    ((extract_entities q).crops).count c = 1 := by
  have hp : kwMatch (lowerStr q) kws = true := by
    obtain ⟨kw, hkw, hct⟩ := hm
    exact List.any_eq_true.mpr ⟨kw, hkw, hct⟩
  have hnd : (crop_keywords.map (·.1)).Nodup := by decide
  simp only [extract_entities]
  exact count_map_filter_eq_one (fun pr => kwMatch (lowerStr q) pr.2) c crop_keywords hnd
    kws hc hp

/-- Witness for C4 on a question containing two synonyms of Bajra. -/
theorem C4_crop_once_witness :
    ("Bajra", ["bajra", "pearl millet", "millet"]) ∈ crop_keywords ∧
    (∃ kw ∈ ["bajra", "pearl millet", "millet"],
      strContains (lowerStr "pearl millet or millet?") kw = true) ∧
    ((extract_entities "pearl millet or millet?").crops).count "Bajra" = 1 :=
  ⟨by decide, ⟨"millet", by decide, by decide⟩,
    C4_crop_once "pearl millet or millet?" "Bajra" ["bajra", "pearl millet", "millet"]
      (by decide) ⟨"millet", by decide, by decide⟩⟩

/-! ## Claim C7: crop trends over year-sorted values -/

/-- Characters with equal code points are equal. -/
theorem char_toNat_inj {c d : Char} (h : c.toNat = d.toNat) : c = d := by
  have hc := Char.ofNat_toNat c
  rw [h, Char.ofNat_toNat] at hc
  exact hc.symm

/-- Lexicographic comparison is asymmetric. -/
theorem charsLt_asymm : ∀ x y : List Char, charsLt x y = true → charsLt y x = false := by
  intro x
  induction x with
  | nil =>
    intro y h
    cases y with
    | nil => simp [charsLt] at h
    | cons b bs => rfl
  | cons a as ih =>
    intro y h
    cases y with
    | nil => simp [charsLt] at h
    | cons b bs =>
      rw [charsLt] at h ⊢
      by_cases h1 : a.toNat < b.toNat
      · rw [if_neg (Nat.lt_asymm h1), if_pos h1]
      · rw [if_neg h1] at h
        by_cases h2 : b.toNat < a.toNat
        · rw [if_pos h2] at h
          exact absurd h (by simp)
        · rw [if_neg h2] at h
          rw [if_neg h2, if_neg h1]
          exact ih bs h

/-- Lexicographic comparison is transitive. -/
theorem charsLt_trans : ∀ x y z : List Char,
    charsLt x y = true → charsLt y z = true → charsLt x z = true := by
  intro x
  induction x with
  | nil =>
    intro y z h1 h2
    cases y with
    | nil => simp [charsLt] at h1
    | cons b bs =>
      cases z with
      | nil => simp [charsLt] at h2
      | cons c cs => rfl
  | cons a as ih =>
    intro y z h1 h2
    cases y with
    | nil => simp [charsLt] at h1
    | cons b bs =>
      cases z with
      | nil => simp [charsLt] at h2
      | cons c cs =>
        rw [charsLt] at h1 h2 ⊢
        by_cases hab : a.toNat < b.toNat
        · by_cases hbc : b.toNat < c.toNat
          · rw [if_pos (by omega)]
          · rw [if_neg hbc] at h2
            by_cases hcb : c.toNat < b.toNat
            · rw [if_pos hcb] at h2
              exact absurd h2 (by simp)
            · rw [if_pos (by omega)]
        · rw [if_neg hab] at h1
          by_cases hba : b.toNat < a.toNat
          · rw [if_pos hba] at h1
            exact absurd h1 (by simp)
          · rw [if_neg hba] at h1
            by_cases hbc : b.toNat < c.toNat
            · rw [if_pos (by omega)]
            · rw [if_neg hbc] at h2
              by_cases hcb : c.toNat < b.toNat
              · rw [if_pos hcb] at h2
                exact absurd h2 (by simp)
              · rw [if_neg hcb] at h2
                rw [if_neg (by omega), if_neg (by omega)]
                exact ih bs cs h1 h2

/-- Lexicographic comparison is trichotomous. -/
theorem charsLt_trichotomy : ∀ x y : List Char,
    charsLt x y = true ∨ x = y ∨ charsLt y x = true := by
  intro x
  induction x with
  | nil =>
    intro y
    cases y with
    | nil => exact Or.inr (Or.inl rfl)
    | cons b bs => exact Or.inl rfl
  | cons a as ih =>
    intro y
    cases y with
    | nil => exact Or.inr (Or.inr rfl)
    | cons b bs =>
      rcases Nat.lt_trichotomy a.toNat b.toNat with h | h | h
      · exact Or.inl (by rw [charsLt, if_pos h])
      · rcases ih bs with h2 | h2 | h2
        · exact Or.inl (by rw [charsLt, if_neg (by omega), if_neg (by omega)]; exact h2)
        · exact Or.inr (Or.inl (by rw [char_toNat_inj h, h2]))
        · exact Or.inr (Or.inr (by rw [charsLt, if_neg (by omega), if_neg (by omega)]; exact h2))
      · exact Or.inr (Or.inr (by rw [charsLt, if_pos h]))
  
/-- String comparison is asymmetric. -/
theorem strLtB_asymm (a b : String) (h : strLtB a b = true) : strLtB b a = false :=
  charsLt_asymm a.toList b.toList h

/-- String comparison is transitive. -/
theorem strLtB_trans (a b c : String) (h1 : strLtB a b = true) (h2 : strLtB b c = true) :
    strLtB a c = true :=
  charsLt_trans a.toList b.toList c.toList h1 h2

/-- String comparison is trichotomous. -/
theorem strLtB_trichotomy (a b : String) :
    strLtB a b = true ∨ a = b ∨ strLtB b a = true := by
  rcases charsLt_trichotomy a.toList b.toList with h | h | h
  · exact Or.inl h
  · refine Or.inr (Or.inl ?_)
    cases a with
    | mk da =>
      cases b with
      | mk db =>
        simp only [String.toList] at h
        simp [h]
  · exact Or.inr (Or.inr h)

/-- Elements of an insertion are the inserted pair or old elements. -/
theorem insertPair_mem {p x : String × ℚ} : ∀ {l : List (String × ℚ)},
    x ∈ insertPair p l → x = p ∨ x ∈ l := by
  intro l
  induction l with
  | nil =>
    intro h
    rw [insertPair] at h
    exact Or.inl (List.mem_singleton.mp h)
  | cons q qs ih =>
    intro h
    rw [insertPair] at h
    split at h
    · rcases List.mem_cons.mp h with rfl | h'
      · exact Or.inr (List.mem_cons_self _ _)
      · rcases ih h' with h'' | h''
        · exact Or.inl h''
        · exact Or.inr (List.mem_cons_of_mem _ h'')
    · rcases List.mem_cons.mp h with rfl | h'
      · exact Or.inl rfl
      · exact Or.inr h'

/-- Insertion preserves the ascending-by-key ordering. -/
theorem insertPair_pairwise {p : String × ℚ} : ∀ {l : List (String × ℚ)},
    l.Pairwise keyLe → (insertPair p l).Pairwise keyLe := by
  intro l
  induction l with
  | nil =>
    intro _
    simp [insertPair]
  | cons q qs ih =>
    intro hl
    rw [List.pairwise_cons] at hl
    obtain ⟨hq, hqs⟩ := hl
    rw [insertPair]
    split
    · next hlt =>
      rw [List.pairwise_cons]
      refine ⟨?_, ih hqs⟩
      intro x hx
      rcases insertPair_mem hx with rfl | hx'
      · exact strLtB_asymm _ _ hlt
      · exact hq x hx'
    · next hnlt =>
      have hnlt' : strLtB q.1 p.1 = false := by
        revert hnlt
        cases strLtB q.1 p.1 <;> simp
      rw [List.pairwise_cons]
      constructor
      · intro x hx
        rcases List.mem_cons.mp hx with rfl | hx'
        · exact hnlt'
        · have hqx : strLtB x.1 q.1 = false := hq x hx'
          rcases strLtB_trichotomy x.1 q.1 with h1 | h1 | h1
          · rw [h1] at hqx
            exact absurd hqx (by simp)
          · rw [keyLe, h1]
            exact hnlt'
          · cases hxp : strLtB x.1 p.1 with
            | false => exact hxp
            | true =>
              have := strLtB_trans q.1 x.1 p.1 h1 hxp
              rw [this] at hnlt'
              exact absurd hnlt' (by simp)
      · rw [List.pairwise_cons]
        exact ⟨hq, hqs⟩

/-- The year-table sort is ascending by year label. -/
theorem sortPairs_pairwise (l : List (String × ℚ)) : (sortPairs l).Pairwise keyLe := by
  induction l with
  | nil => simp [sortPairs]
  | cons p ps ih =>
    rw [sortPairs]
    exact insertPair_pairwise ih

/-- Every emitted crop trend line comes from a crop present in the state's
table, with the trend computed by `trendOf` on the year-sorted values and the
direction derived from the trend's sign. -/
theorem trendCropLines_mem {s : String} {c : String} {t : ℚ} {dir : TrendDir} :
    ∀ {crops : List String} {l : List (String × ℚ × TrendDir)},
    trendCropLines s crops = Except.ok l → (c, t, dir) ∈ l →
    ∃ tbl, alookup c (cropsOf s) = some tbl ∧ trendOf (sortedValues tbl) = Except.ok t ∧
      dir = (if 0 < t then TrendDir.increasing else TrendDir.decreasing) := by
  intro crops
  induction crops with
  | nil =>
    intro l hl hmem
    rw [trendCropLines] at hl
    cases hl
    simp at hmem
  | cons c' cs ih =>
    intro l hl hmem
    cases hal : alookup c' (cropsOf s) with
    | none =>
      rw [trendCropLines, hal] at hl
      exact ih hl hmem
    | some tbl =>
      rw [trendCropLines, hal] at hl
      obtain ⟨t', ht', hl⟩ := bind_eq_ok hl
      obtain ⟨rest, hrest, hl⟩ := bind_eq_ok hl
      cases hl
      rcases List.mem_cons.mp hmem with heq | hmem'
      · simp only [Prod.mk.injEq] at heq
        obtain ⟨rfl, rfl, rfl⟩ := heq
        exact ⟨tbl, hal, ht', rfl⟩
      · exact ih hrest hmem'

/-- C7: in the trend generator, every reported crop trend comes from a
requested crop present in the target state's table; it is computed over the
production values taken in ascending order of year label as
(last - first) / length, and the direction is Increasing exactly when the
trend is strictly positive and Decreasing otherwise, so a zero trend is
reported as Decreasing. -/
theorem C7_crop_trend_direction (e : Entities) (r : GenResult) (tp : TrendPoints)
    (c : String) (t : ℚ) (dir : TrendDir)
    (hr : generate_trend_analysis e = Except.ok r)
    (hp : r.points = Points.trend tp)
    (hmem : (c, t, dir) ∈ tp.crop_trends) :
    ∃ tbl v vs, alookup c (cropsOf (targetStateOf e)) = some tbl ∧
      (sortPairs tbl).Pairwise keyLe ∧
      sortedValues tbl = v :: vs ∧
      t = ((v :: vs).getLast (List.cons_ne_nil v vs) - v) / (((v :: vs).length : ℕ) : ℚ) ∧
      dir = (if 0 < t then TrendDir.increasing else TrendDir.decreasing) ∧
      (t = 0 → dir = TrendDir.decreasing) := by
  simp only [generate_trend_analysis] at hr
  have hline : ∃ ct, trendCropLines (targetStateOf e)
      (if e.crops.isEmpty then ["Bajra", "Wheat"] else e.crops) = Except.ok ct ∧
      (c, t, dir) ∈ ct := by
    split at hr
    · obtain ⟨cd, -, hr⟩ := bind_eq_ok hr
      obtain ⟨y, -, hr⟩ := bind_eq_ok hr
      obtain ⟨ct, hct, hr⟩ := bind_eq_ok hr
      cases hr
      simp only [Points.trend.injEq] at hp
      refine ⟨ct, hct, ?_⟩
      rw [← hp] at hmem
      exact hmem
    · obtain ⟨y, -, hr⟩ := bind_eq_ok hr
      obtain ⟨ct, hct, hr⟩ := bind_eq_ok hr
      cases hr
      simp only [Points.trend.injEq] at hp
      refine ⟨ct, hct, ?_⟩
      rw [← hp] at hmem
      exact hmem
  obtain ⟨ct, hct, hmem'⟩ := hline
  obtain ⟨tbl, hal, htr, hdir⟩ := trendCropLines_mem hct hmem'
  cases hsv : sortedValues tbl with
  | nil => rw [hsv, trendOf] at htr; exact absurd htr (by simp)
  | cons v vs =>
    rw [hsv, trendOf] at htr
    simp only [Except.ok.injEq] at htr
    refine ⟨tbl, v, vs, hal, sortPairs_pairwise tbl, hsv, htr.symm, hdir, ?_⟩
    intro h0
    rw [hdir, h0]
    norm_num

/-- Witness for C7 on rajasthan's Bajra trend line. -/
theorem C7_crop_trend_direction_witness :
    generate_trend_analysis entRaj = Except.ok trendRajRes ∧
    trendRajRes.points = Points.trend trendRajPoints ∧
    ("Bajra", -100, TrendDir.decreasing) ∈ trendRajPoints.crop_trends ∧
    ∃ tbl v vs, alookup "Bajra" (cropsOf (targetStateOf entRaj)) = some tbl ∧
      (sortPairs tbl).Pairwise keyLe ∧
      sortedValues tbl = v :: vs ∧
      (-100 : ℚ) = ((v :: vs).getLast (List.cons_ne_nil v vs) - v) / (((v :: vs).length : ℕ) : ℚ) ∧
      TrendDir.decreasing = (if 0 < (-100 : ℚ) then TrendDir.increasing else TrendDir.decreasing) ∧
      ((-100 : ℚ) = 0 → TrendDir.decreasing = TrendDir.decreasing) :=
  ⟨trend_raj_eval, rfl, by norm_num [trendRajPoints],
    C7_crop_trend_direction entRaj trendRajRes trendRajPoints "Bajra" (-100) TrendDir.decreasing
      trend_raj_eval rfl (by norm_num [trendRajPoints])⟩

/-! ## Claim C5: year extraction equals the word-bounded in-range tokens -/

/-- Digit characters have code points between 48 and 57. -/
theorem isDigit_bounds {c : Char} (h : c.isDigit = true) : 48 ≤ c.toNat ∧ c.toNat ≤ 57 := by
  simp [Char.isDigit] at h
  exact h

/-- The spec-side token test agrees with the code's regex alternation: four
characters form an in-range 4-digit year exactly when they match
201[8-9]|202[0-4]. -/
theorem isYearToken_eq (c1 c2 c3 c4 : Char) (rest : List Char) :
    isYearToken (c1 :: c2 :: c3 :: c4 :: rest) = (yearDigits c1 c2 c3 c4 && afterOk rest) := by
  rw [Bool.eq_iff_iff]
  constructor
  · intro h
    rw [isYearToken] at h
    simp only [Bool.and_eq_true, decide_eq_true_eq] at h
    obtain ⟨⟨⟨⟨⟨⟨hd1, hd2⟩, hd3⟩, hd4⟩, hge⟩, hle⟩, haf⟩ := h
    obtain ⟨h1l, h1r⟩ := isDigit_bounds hd1
    obtain ⟨h2l, h2r⟩ := isDigit_bounds hd2
    obtain ⟨h3l, h3r⟩ := isDigit_bounds hd3
    obtain ⟨h4l, h4r⟩ := isDigit_bounds hd4
    simp only [charsVal] at hge hle
    have hc1 : c1.toNat = 50 := by omega
    have hc2 : c2.toNat = 48 := by omega
    have e1 : c1 = '2' := char_toNat_inj (by rw [hc1]; rfl)
    have e2 : c2 = '0' := char_toNat_inj (by rw [hc2]; rfl)
    subst e1
    subst e2
    have hcase : (c3.toNat = 49 ∧ (c4.toNat = 56 ∨ c4.toNat = 57)) ∨
        (c3.toNat = 50 ∧ (c4.toNat = 48 ∨ c4.toNat = 49 ∨ c4.toNat = 50 ∨ c4.toNat = 51 ∨
          c4.toNat = 52)) := by omega
    rcases hcase with ⟨h3, h4⟩ | ⟨h3, h4⟩
    · have e3 : c3 = '1' := char_toNat_inj (by rw [h3]; rfl)
      subst e3
      rcases h4 with h4 | h4
      · have e4 : c4 = '8' := char_toNat_inj (by rw [h4]; rfl)
        subst e4
        simp [yearDigits, haf]
      · have e4 : c4 = '9' := char_toNat_inj (by rw [h4]; rfl)
        subst e4
        simp [yearDigits, haf]
    · have e3 : c3 = '2' := char_toNat_inj (by rw [h3]; rfl)
      subst e3
      rcases h4 with h4 | h4 | h4 | h4 | h4
      · have e4 : c4 = '0' := char_toNat_inj (by rw [h4]; rfl)
        subst e4
        simp [yearDigits, haf]
      · have e4 : c4 = '1' := char_toNat_inj (by rw [h4]; rfl)
        subst e4
        simp [yearDigits, haf]
      · have e4 : c4 = '2' := char_toNat_inj (by rw [h4]; rfl)
        subst e4
        simp [yearDigits, haf]
      · have e4 : c4 = '3' := char_toNat_inj (by rw [h4]; rfl)
        subst e4
        simp [yearDigits, haf]
      · have e4 : c4 = '4' := char_toNat_inj (by rw [h4]; rfl)
        subst e4
        simp [yearDigits, haf]
  · intro h
    simp only [Bool.and_eq_true] at h
    obtain ⟨hyd, haf⟩ := h
    rw [yearDigits] at hyd
    simp only [Bool.and_eq_true, Bool.or_eq_true, beq_iff_eq] at hyd
    obtain ⟨⟨rfl, rfl⟩, hcase⟩ := hyd
    rcases hcase with ⟨rfl, h4 | h4⟩ | ⟨rfl, (((h4 | h4) | h4) | h4) | h4⟩ <;>
      (subst h4 ; simp +decide [isYearToken, charsVal, haf])

/-- The spec-side scan of the empty character list is empty. -/
theorem specAux_nil (b : Bool) : specAux b [] = [] := rfl

/-- One-step unfolding of the spec-side position scan: the token starting at
position 0 (if the boundary flag holds and a token starts here) followed by
the scan of the tail, whose boundary flag is the word-character status of the
consumed character. -/
theorem specAux_cons (b : Bool) (c : Char) (cs : List Char) :
    specAux b (c :: cs) =
      (if b && isYearToken (c :: cs) then [String.mk ((c :: cs).take 4)] else []) ++
        specAux (!isWordChar c) cs := by
  rw [specAux, specAux, List.length_cons, List.range_succ_eq_map, List.filterMap_cons,
    List.filterMap_map]
  have hfun : ((fun i =>
      if (if i = 0 then b else !isWordChar ((c :: cs).getD (i - 1) ' ')) &&
          isYearToken ((c :: cs).drop i) then
        some (String.mk (((c :: cs).drop i).take 4))
      else none) ∘ Nat.succ) =
      (fun i =>
        if (if i = 0 then !isWordChar c else !isWordChar (cs.getD (i - 1) ' ')) &&
            isYearToken (cs.drop i) then
          some (String.mk ((cs.drop i).take 4))
        else none) := by
    funext i
    cases i with
    | zero => simp
    | succ n => simp
  rw [hfun]
  by_cases hc : (b && isYearToken (c :: cs)) = true
  · simp only [List.drop_zero]
    rw [if_pos (by simpa using hc)]
    rw [if_pos hc]
    rfl
  · simp only [List.drop_zero]
    rw [if_neg (by simpa using hc)]
    rw [if_neg hc]
    rfl

/-- Characters matched by the year alternation are word characters. -/
theorem yearDigits_chars {c1 c2 c3 c4 : Char} (h : yearDigits c1 c2 c3 c4 = true) :
    isWordChar c1 = true ∧ isWordChar c2 = true ∧ isWordChar c3 = true ∧
      isWordChar c4 = true := by
  rw [yearDigits] at h
  simp only [Bool.and_eq_true, Bool.or_eq_true, beq_iff_eq] at h
  obtain ⟨⟨rfl, rfl⟩, hcase⟩ := h
  rcases hcase with ⟨rfl, h4 | h4⟩ | ⟨rfl, (((h4 | h4) | h4) | h4) | h4⟩ <;>
    (subst h4 ; refine ⟨by decide, by decide, by decide, by decide⟩)

/-- The code's findall scan produces exactly the position-by-position list of
word-bounded in-range year tokens (no token is lost by the scan's skipping,
because tokens cannot overlap: every character of a token is a word
character, so no boundary can occur inside one). -/
theorem yearScan_eq_specAux : ∀ (prev : Option Char) (cs : List Char),
    yearScan prev cs = specAux (boundaryOk prev) cs := by
  intro prev cs
  induction prev, cs using yearScan.induct with
  | case1 x => rw [yearScan, specAux_nil]
  | case2 prev c1 c2 c3 c4 rest' hcond ih =>
    rw [yearScan, if_pos hcond]
    simp only [Bool.and_eq_true] at hcond
    obtain ⟨⟨hb, hyd⟩, haf⟩ := hcond
    obtain ⟨hw1, hw2, hw3, hw4⟩ := yearDigits_chars hyd
    rw [specAux_cons, if_pos (by simp [hb, isYearToken_eq, hyd, haf])]
    rw [specAux_cons, if_neg (by simp [hw1])]
    rw [specAux_cons, if_neg (by simp [hw2])]
    rw [specAux_cons, if_neg (by simp [hw3])]
    rw [ih]
    simp only [boundaryOk, hw4]
    rfl
  | case3 prev c1 c2 c3 c4 rest' hcond ih =>
    rw [yearScan, if_neg hcond]
    rw [specAux_cons (boundaryOk prev) c1 (c2 :: c3 :: c4 :: rest')]
    have hno : (boundaryOk prev && isYearToken (c1 :: c2 :: c3 :: c4 :: rest')) = false := by
      rw [isYearToken_eq]
      revert hcond
      cases boundaryOk prev <;> cases yearDigits c1 c2 c3 c4 <;> cases afterOk rest' <;> simp
    rw [hno, ih]
    simp [boundaryOk]
  | case4 prev c1 rest hshort ih =>
    have hLHS : yearScan prev (c1 :: rest) = yearScan (some c1) rest := by
      rcases rest with _ | ⟨a, _ | ⟨b', _ | ⟨c', r⟩⟩⟩
      · rfl
      · rfl
      · rfl
      · exact absurd rfl (hshort a b' c' r)
    have hTok : isYearToken (c1 :: rest) = false := by
      rcases rest with _ | ⟨a, _ | ⟨b', _ | ⟨c', r⟩⟩⟩
      · rfl
      · rfl
      · rfl
      · exact absurd rfl (hshort a b' c' r)
    rw [hLHS, ih, specAux_cons, hTok]
    simp [boundaryOk]

/-- Decomposition of a successful spec-side token test. -/
theorem isYearToken_decomp {l : List Char} (h : isYearToken l = true) :
    ∃ c1 c2 c3 c4 rest, l = c1 :: c2 :: c3 :: c4 :: rest ∧
      c1.isDigit = true ∧ c2.isDigit = true ∧ c3.isDigit = true ∧ c4.isDigit = true ∧
      2018 ≤ charsVal c1 c2 c3 c4 ∧ charsVal c1 c2 c3 c4 ≤ 2024 ∧ afterOk rest = true := by
  rcases l with _ | ⟨c1, _ | ⟨c2, _ | ⟨c3, _ | ⟨c4, rest⟩⟩⟩⟩
  · exact Bool.noConfusion h
  · exact Bool.noConfusion h
  · exact Bool.noConfusion h
  · exact Bool.noConfusion h
  · rw [isYearToken] at h
    simp only [Bool.and_eq_true, decide_eq_true_eq] at h
    obtain ⟨⟨⟨⟨⟨⟨h1, h2⟩, h3⟩, h4⟩, h5⟩, h6⟩, h7⟩ := h
    exact ⟨c1, c2, c3, c4, rest, rfl, h1, h2, h3, h4, h5, h6, h7⟩

/-- C5: the extractor's years list is exactly the ordered sequence of
word-bounded 4-digit tokens of the question whose value lies between 2018 and
2024 inclusive, and every extracted year is such an in-range 4-digit token
(so a 4-digit token outside that range is never extracted). -/
theorem C5_year_extraction (q : String) :
    (extract_entities q).years = specYears q ∧
    ∀ y ∈ (extract_entities q).years, ∃ c1 c2 c3 c4 : Char,
      y = String.mk [c1, c2, c3, c4] ∧
      c1.isDigit = true ∧ c2.isDigit = true ∧ c3.isDigit = true ∧ c4.isDigit = true ∧
      2018 ≤ charsVal c1 c2 c3 c4 ∧ charsVal c1 c2 c3 c4 ≤ 2024 := by
  have heq : (extract_entities q).years = specYears q := by
    show findYears q = specYears q
    rw [findYears, specYears]
    exact yearScan_eq_specAux none q.toList
  refine ⟨heq, ?_⟩
  intro y hy
  rw [heq, specYears, specAux] at hy
  obtain ⟨i, -, hf⟩ := List.mem_filterMap.mp hy
  by_cases hcond : ((if i = 0 then true else !isWordChar (q.toList.getD (i - 1) ' ')) &&
      isYearToken (q.toList.drop i)) = true
  · rw [if_pos hcond] at hf
    simp only [Option.some.injEq] at hf
    subst hf
    simp only [Bool.and_eq_true] at hcond
    obtain ⟨c1, c2, c3, c4, rest, hdecomp, h1, h2, h3, h4, h5, h6, -⟩ :=
      isYearToken_decomp hcond.2
    refine ⟨c1, c2, c3, c4, ?_, h1, h2, h3, h4, h5, h6⟩
    rw [hdecomp]
    rfl
  · rw [if_neg hcond] at hf
    exact absurd hf (by simp)

/-- Witness for C5 on a question with one in-range and one out-of-range year. -/
theorem C5_year_extraction_witness :
    (extract_entities "from 2019 to 2025").years = specYears "from 2019 to 2025" ∧
    "2019" ∈ (extract_entities "from 2019 to 2025").years ∧
    ∃ c1 c2 c3 c4 : Char,
      "2019" = String.mk [c1, c2, c3, c4] ∧
      c1.isDigit = true ∧ c2.isDigit = true ∧ c3.isDigit = true ∧ c4.isDigit = true ∧
      2018 ≤ charsVal c1 c2 c3 c4 ∧ charsVal c1 c2 c3 c4 ≤ 2024 :=
  ⟨(C5_year_extraction "from 2019 to 2025").1, by decide,
    (C5_year_extraction "from 2019 to 2025").2 "2019" (by decide)⟩
